import Mathlib

/-!
Verification development for the record-extraction layer of
`google_takeout_parser` (files `parse_json.py` and `models.py`).

The Python code is shallowly embedded:

* a parsed JSON document (the result of `json.loads`) is a `PyVal`;
* Python machine floats are modelled as exact rationals `ℚ`;
* Python exceptions are modelled by `PyExc`; fallible expressions live in
  `Except PyExc`;
* a generator is modelled by the list of values it yields together with the
  exception (if any) that it raises after the last yield
  (`GenOut α = List (Except PyExc α) × Option PyExc`); the extractors yield
  either events or caught exceptions, hence the inner `Except`;
* `datetime` objects are UTC instants: microseconds since the Unix epoch plus
  the tz-awareness flag (the code only ever builds UTC datetimes);
* Python f-string messages are reproduced except that `repr`-interpolation of
  whole records / key views is elided (messages keep the fixed text and the
  interpolated path or key name); no claim depends on message text.

Functions of this repository that the extractors call but whose sources are
not part of the two files (`time_utils.parse_json_utc_date`,
`time_utils.parse_datetime_millis`, `http_allowlist.convert_to_https_opt`)
are modelled from the spec; each carries a doc comment saying so.
-/

namespace GTP

/-- A parsed JSON value, i.e. a possible result of Python `json.loads`
(deserialised objects are association lists in key order). -/
inductive PyVal where
  | none : PyVal
  | bool : Bool → PyVal
  | int : Int → PyVal
  | float : ℚ → PyVal
  | str : String → PyVal
  | list : List PyVal → PyVal
  | dict : List (String × PyVal) → PyVal

/-- The Python exceptions the embedded code can raise or yield. -/
inductive PyExc where
  | runtimeError : String → PyExc
  | typeError : String → PyExc
  | attributeError : String → PyExc
  | keyError : String → PyExc
  | valueError : String → PyExc
  | unboundLocalError : String → PyExc
deriving DecidableEq

/-- Outcome of one yielded element of an extractor generator: an event or a
captured exception. -/
abbrev Res (α : Type) := Except PyExc α

/-- A finished generator run: the yielded elements in order, and the exception
that escaped the generator (if any) after the last yield. -/
abbrev GenOut (α : Type) := List (Res α) × Option PyExc

/-- First value bound to a key in an association list (Python dict lookup). -/
def dictLookup : List (String × PyVal) → String → Option PyVal
  | [], _ => Option.none
  | (k, v) :: rest, key => if k = key then some v else dictLookup rest key

/-- Python `d.get(key, default)`; raises `AttributeError` on a non-dict. -/
def pyGetD (v : PyVal) (key : String) (dflt : PyVal) : Res PyVal :=
  match v with
  | PyVal.dict kvs =>
      match dictLookup kvs key with
      | some w => Except.ok w
      | Option.none => Except.ok dflt
  | _ => Except.error (PyExc.attributeError "object has no attribute get")

/-- Python `v[key]` for a string key: dict lookup (`KeyError` when absent),
`TypeError` on every other receiver. -/
def pySubscript (v : PyVal) (key : String) : Res PyVal :=
  match v with
  | PyVal.dict kvs =>
      match dictLookup kvs key with
      | some w => Except.ok w
      | Option.none => Except.error (PyExc.keyError key)
  | PyVal.list _ => Except.error (PyExc.typeError "list indices must be integers")
  | PyVal.str _ => Except.error (PyExc.typeError "string indices must be integers")
  | _ => Except.error (PyExc.typeError "object is not subscriptable")

/-- Whether a character list starts with another one. -/
def charsStartWith : List Char → List Char → Bool
  | _, [] => true
  | [], _ :: _ => false
  | a :: as, b :: bs => a = b && charsStartWith as bs

/-- Substring containment on character lists. -/
def charsContain : List Char → List Char → Bool
  | [], needle => needle.isEmpty
  | h :: t, needle => charsStartWith (h :: t) needle || charsContain t needle

/-- Python `key in v` for a string key: dict key membership, list element
membership (a list element equals a string only when it is that string),
substring test on strings, `TypeError` otherwise. -/
def pyContains (v : PyVal) (key : String) : Res Bool :=
  match v with
  | PyVal.dict kvs => Except.ok ((dictLookup kvs key).isSome)
  | PyVal.list xs =>
      Except.ok (xs.any (fun x => match x with
        | PyVal.str s => s = key
        | _ => false))
  | PyVal.str s => Except.ok (charsContain s.data key.data)
  | _ => Except.error (PyExc.typeError "argument of type is not iterable")

/-- Python truthiness. -/
def pyTruthy : PyVal → Bool
  | PyVal.none => false
  | PyVal.bool b => b
  | PyVal.int n => n ≠ 0
  | PyVal.float q => q ≠ 0
  | PyVal.str s => s ≠ ""
  | PyVal.list xs => !xs.isEmpty
  | PyVal.dict kvs => !kvs.isEmpty

/-- Python `is None`. -/
def pyIsNone : PyVal → Bool
  | PyVal.none => true
  | _ => false

/-- Python iteration `for x in v`: lists yield elements, dicts yield their
keys, strings yield their characters, everything else raises `TypeError`. -/
def pyIter (v : PyVal) : Res (List PyVal) :=
  match v with
  | PyVal.list xs => Except.ok xs
  | PyVal.dict kvs => Except.ok (kvs.map (fun kv => PyVal.str kv.1))
  | PyVal.str s => Except.ok (s.data.map (fun c => PyVal.str (String.mk [c])))
  | _ => Except.error (PyExc.typeError "object is not iterable")

/-- Digit value of a character, when it is a decimal digit. -/
def digitVal (c : Char) : Option Nat :=
  if c.isDigit then some (c.toNat - 48) else Option.none

/-- Parse an unsigned decimal integer from all of the given characters. -/
def readNat : List Char → Option Nat → Option Nat
  | [], acc => acc
  | c :: cs, acc =>
      match digitVal c with
      | some d => readNat cs (some ((acc.getD 0) * 10 + d))
      | Option.none => Option.none

/-- Parse a decimal literal (optional sign, digits, optional fraction) into an
exact rational, the way Python `float(str)` reads such a literal. -/
def parseDecimal (s : String) : Option ℚ :=
  let core : List Char → Option ℚ := fun cs =>
    let intPart := cs.takeWhile Char.isDigit
    let rest := cs.dropWhile Char.isDigit
    match rest with
    | [] => (readNat intPart Option.none).map (fun n => (n : ℚ))
    | dot :: fracCs =>
        if dot = '.' then
          match readNat intPart Option.none, fracCs with
          | some n, [] => some (n : ℚ)
          | acc, _ =>
              if fracCs.all Char.isDigit ∧ fracCs ≠ [] then
                (readNat fracCs Option.none).map (fun f =>
                  (acc.getD 0 : ℚ) + (f : ℚ) / ((10 : ℚ) ^ fracCs.length))
              else Option.none
        else Option.none
  match s.data with
  | '-' :: cs => (core cs).map Neg.neg
  | '+' :: cs => core cs
  | cs => core cs

/-- Python `float(v)`: numbers convert, numeric strings parse, anything else
raises (`ValueError` for a bad string, `TypeError` otherwise). -/
def pyFloat (v : PyVal) : Res ℚ :=
  match v with
  | PyVal.int n => Except.ok (n : ℚ)
  | PyVal.float q => Except.ok q
  | PyVal.bool b => Except.ok (if b then 1 else 0)
  | PyVal.str s =>
      match parseDecimal s with
      | some q => Except.ok q
      | Option.none => Except.error (PyExc.valueError "could not convert string to float")
  | _ => Except.error (PyExc.typeError "float argument must be a string or a number")

/-- Python `v / 1e7`, the E7 fixed-point coordinate decode applied directly to
a JSON value: exact division by 10^7 for numbers, `TypeError` otherwise. -/
def pyDivE7 (v : PyVal) : Res ℚ :=
  match v with
  | PyVal.int n => Except.ok ((n : ℚ) / 10000000)
  | PyVal.float q => Except.ok (q / 10000000)
  | PyVal.bool b => Except.ok ((if b then 1 else 0) / 10000000)
  | _ => Except.error (PyExc.typeError "unsupported operand type for div")

/-- Python `str.rstrip` of the character `s`, used for duration suffixes. -/
def rstripS (s : String) : String :=
  String.mk ((s.data.reverse.dropWhile (fun c => c = 's')).reverse)

/-- A Python `datetime` restricted to what the code builds: a UTC instant as
microseconds since the Unix epoch, plus the tz-awareness flag. -/
structure PyDatetime where
  epochMicros : Int
  aware : Bool
deriving DecidableEq

/-- Python `dt.timestamp()` on the UTC datetimes the code builds: epoch
seconds as an exact number. -/
def PyDatetime.timestamp (d : PyDatetime) : ℚ :=
  (d.epochMicros : ℚ) / 1000000

/-- Python `int(q)` on a number: truncation toward zero. -/
def pyInt (q : ℚ) : Int :=
  if 0 ≤ q then Int.floor q else Int.ceil q

/-- Python `round` to the nearest integer as used when the standard library
converts float seconds to microseconds (ties are irrelevant here because all
inputs below are exact). -/
def pyRound (q : ℚ) : Int := round q

/-- Days since 1970-01-01 of a proleptic-Gregorian civil date
(the standard days-from-civil algorithm). -/
def daysFromCivil (y m d : Int) : Int :=
  let yy := if m ≤ 2 then y - 1 else y
  let era := Int.fdiv yy 400
  let yoe := yy - era * 400
  let mp := Int.fmod (m + 9) 12
  let doy := Int.fdiv (153 * mp + 2) 5 + d - 1
  let doe := yoe * 365 + Int.fdiv yoe 4 - Int.fdiv yoe 100 + doy
  era * 146097 + doe - 719468

/-- Microseconds since the Unix epoch of a UTC civil instant. -/
def epochMicrosOfUtc (y mo d h mi s micros : Int) : Int :=
  (daysFromCivil y mo d * 86400 + h * 3600 + mi * 60 + s) * 1000000 + micros

/-- Read exactly `n` decimal digits, returning their value and the rest. -/
def readNDigits : Nat → Nat → List Char → Option (Nat × List Char)
  | 0, acc, cs => some (acc, cs)
  | _ + 1, _, [] => Option.none
  | n + 1, acc, c :: cs =>
      match digitVal c with
      | some d => readNDigits n (acc * 10 + d) cs
      | Option.none => Option.none

/-- Expect one specific character. -/
def expectChar (c : Char) : List Char → Option (List Char)
  | [] => Option.none
  | x :: xs => if x = c then some xs else Option.none

/-- Truncate or right-pad a digit list to microsecond precision (six digits)
and read its value; truncation, never rounding. -/
def fracToMicros (ds : List Char) : Nat :=
  (readNat ((ds ++ ['0', '0', '0', '0', '0', '0']).take 6) Option.none).getD 0

/-- Modelled from the spec: `time_utils.parse_json_utc_date` (the repository
file `time_utils.py` is not part of the given sources).  Per spec section 4.1
it accepts an ISO-8601 string `YYYY-MM-DDTHH:MM:SS` with a `Z` suffix and an
optional fractional-second part of any digit count, which is padded or
truncated to microsecond precision; the result is a UTC-aware instant.
Non-string input raises `TypeError`, a malformed string raises
`ValueError`. -/
def parse_json_utc_date (v : PyVal) : Res PyDatetime :=
  match v with
  | PyVal.str s =>
      let bad : Res PyDatetime := Except.error (PyExc.valueError "invalid isoformat string")
      let step : Option PyDatetime := do
        let (y, r) ← readNDigits 4 0 s.data
        let r ← expectChar '-' r
        let (mo, r) ← readNDigits 2 0 r
        let r ← expectChar '-' r
        let (d, r) ← readNDigits 2 0 r
        let r ← expectChar 'T' r
        let (h, r) ← readNDigits 2 0 r
        let r ← expectChar ':' r
        let (mi, r) ← readNDigits 2 0 r
        let r ← expectChar ':' r
        let (sec, r) ← readNDigits 2 0 r
        let (micros, r) :=
          match r with
          | '.' :: rest =>
              (fracToMicros (rest.takeWhile Char.isDigit), rest.dropWhile Char.isDigit)
          | _ => (0, r)
        let r ← expectChar 'Z' r
        if r = [] ∧ 1 ≤ mo ∧ mo ≤ 12 ∧ 1 ≤ d ∧ d ≤ 31 ∧ h ≤ 23 ∧ mi ≤ 59 ∧ sec ≤ 59 then
          some ⟨epochMicrosOfUtc y mo d h mi sec micros, true⟩
        else Option.none
      match step with
      | some dt => Except.ok dt
      | Option.none => bad
  | _ => Except.error (PyExc.typeError "fromisoformat argument must be str")

/-- Modelled from the spec: `time_utils.parse_datetime_millis` (file
`time_utils.py` is not part of the given sources).  Per spec section 4.1 it
accepts a millisecond epoch value given as a numeric or a numeric string and
converts it as `epoch_ms / 1000` seconds, UTC-aware. -/
def parse_datetime_millis (v : PyVal) : Res PyDatetime :=
  match v with
  | PyVal.int n => Except.ok ⟨n * 1000, true⟩
  | PyVal.float q => Except.ok ⟨pyRound (q * 1000), true⟩
  | PyVal.str s =>
      match parseDecimal s with
      | some q => Except.ok ⟨pyRound (q * 1000), true⟩
      | Option.none => Except.error (PyExc.valueError "invalid literal")
  | _ => Except.error (PyExc.typeError "an integer is required")

/-- Python `datetime.utcfromtimestamp`: float epoch seconds to a naive
datetime, converting the fractional part to microseconds. -/
def utcfromtimestamp (t : ℚ) : PyDatetime :=
  ⟨pyRound (t * 1000000), false⟩

/-- Python `dt.replace` setting `tzinfo` to UTC. -/
def replaceTzUtc (d : PyDatetime) : PyDatetime :=
  ⟨d.epochMicros, true⟩

/-- Modelled from the spec: `http_allowlist.convert_to_https_opt` (file
`http_allowlist.py` is not part of the given sources).  Per spec section 4.1
it rewrites an `http://` URL to `https://` and passes absent or null input
through unchanged; non-string values are likewise passed through. -/
def convert_to_https_opt (v : PyVal) : PyVal :=
  match v with
  | PyVal.str s =>
      if "http://".data.isPrefixOf s.data then
        PyVal.str (String.mk ("https://".data ++ s.data.drop 7))
      else PyVal.str s
  | w => w

/-! ## The typed event model (`models.py`)

Fields that the Python constructors copy straight from the JSON document are
`PyVal` (dataclasses and NamedTuples do not validate types); fields the code
computes are given their computed type. -/

/-- `models.Subtitles`. -/
structure Subtitles where
  name : PyVal
  url : PyVal

/-- `models.LocationInfo`. -/
structure LocationInfo where
  name : PyVal
  url : PyVal
  source : PyVal
  sourceUrl : PyVal

/-- `models.Activity`. -/
structure Activity where
  header : PyVal
  title : PyVal
  time : PyDatetime
  description : PyVal
  titleUrl : PyVal
  subtitles : List Subtitles
  details : List PyVal
  locationInfos : List LocationInfo
  products : PyVal

/-- `models.Activity.key`: `(header, title, int(time.timestamp()))`. -/
def Activity.key (a : Activity) : PyVal × PyVal × Int :=
  (a.header, a.title, pyInt a.time.timestamp)

/-- `models.LikedYoutubeVideo`. -/
structure LikedYoutubeVideo where
  title : PyVal
  desc : PyVal
  link : String
  dt : PyDatetime

/-- `models.PlayStoreAppInstall`. -/
structure PlayStoreAppInstall where
  title : PyVal
  dt : PyDatetime
  device_name : PyVal

/-- `models.Location`. -/
structure Location where
  lat : ℚ
  lng : ℚ
  accuracy : Option ℚ
  dt : PyDatetime

/-- `models.Location.key`: `(lat, lng, accuracy, int(dt.timestamp()))`. -/
def Location.key (l : Location) : ℚ × ℚ × Option ℚ × Int :=
  (l.lat, l.lng, l.accuracy, pyInt l.dt.timestamp)

/-- `models.CandidateLocation`. -/
structure CandidateLocation where
  lat : ℚ
  lng : ℚ
  address : PyVal
  name : PyVal
  placeId : PyVal
  locationConfidence : PyVal
  sourceInfoDeviceTag : PyVal

/-- `models.CandidateLocation.from_dict`, keyword arguments evaluated in
source order: gets for address, name, placeId, locationConfidence, then the
E7 divisions for lat and lng, then the sourceInfo chain. -/
def CandidateLocation.from_dict (data : PyVal) : Res CandidateLocation := do
  let address ← pyGetD data "address" PyVal.none
  let name ← pyGetD data "name" PyVal.none
  let placeId ← pyGetD data "placeId" PyVal.none
  let locationConfidence ← pyGetD data "locationConfidence" PyVal.none
  let latRaw ← pySubscript data "latitudeE7"
  let lat ← pyDivE7 latRaw
  let lngRaw ← pySubscript data "longitudeE7"
  let lng ← pyDivE7 lngRaw
  let sourceInfo ← pyGetD data "sourceInfo" (PyVal.dict [])
  let tag ← pyGetD sourceInfo "deviceTag" PyVal.none
  pure ⟨lat, lng, address, name, placeId, locationConfidence, tag⟩

/-- `models.PlaceVisit`. -/
structure PlaceVisit where
  lat : ℚ
  lng : ℚ
  centerLat : Option ℚ
  centerLng : Option ℚ
  address : PyVal
  name : PyVal
  locationConfidence : PyVal
  placeId : PyVal
  startTime : PyDatetime
  endTime : PyDatetime
  sourceInfoDeviceTag : PyVal
  otherCandidateLocations : List CandidateLocation
  placeConfidence : PyVal
  placeVisitType : PyVal
  visitConfidence : PyVal
  editConfirmationStatus : PyVal
  placeVisitImportance : PyVal

/-- `models.PlaceVisit.key`:
`(lat, lng, int(startTime.timestamp()), visitConfidence)`. -/
def PlaceVisit.key (p : PlaceVisit) : ℚ × ℚ × Int × PyVal :=
  (p.lat, p.lng, pyInt p.startTime.timestamp, p.visitConfidence)

/-- `models.ActivitySegmentActivity`. -/
structure ActivitySegmentActivity where
  activityType : PyVal
  probability : PyVal

/-- `models.ActivitySegmentActivity.from_dict`. -/
def ActivitySegmentActivity.from_dict (data : PyVal) : Res ActivitySegmentActivity := do
  let t ← pySubscript data "activityType"
  let p ← pySubscript data "probability"
  pure ⟨t, p⟩

/-- `models.Waypoint`. -/
structure Waypoint where
  lat : ℚ
  lng : ℚ

/-- `models.Waypoint.from_dict`. -/
def Waypoint.from_dict (data : PyVal) : Res Waypoint := do
  let latRaw ← pySubscript data "latE7"
  let lat ← pyDivE7 latRaw
  let lngRaw ← pySubscript data "lngE7"
  let lng ← pyDivE7 lngRaw
  pure ⟨lat, lng⟩

/-- `models.RoadSegment`. -/
structure RoadSegment where
  placeId : PyVal
  duration : Option ℚ

/-- `models.RoadSegment.from_dict`: the duration string has its trailing `s`
suffix stripped and is parsed as a float, only when the key is present. -/
def RoadSegment.from_dict (data : PyVal) : Res RoadSegment := do
  let placeId ← pySubscript data "placeId"
  let hasDur ← pyContains data "duration"
  if hasDur then do
    let d ← pySubscript data "duration"
    match d with
    | PyVal.str s => do
        let q ← pyFloat (PyVal.str (rstripS s))
        pure ⟨placeId, some q⟩
    | _ => Except.error (PyExc.attributeError "object has no attribute rstrip")
  else
    pure ⟨placeId, Option.none⟩

/-- `models.WaypointPath`. -/
structure WaypointPath where
  waypoints : List Waypoint
  source : PyVal
  roadSegment : Option (List RoadSegment)
  distanceMeters : PyVal
  travelMode : PyVal
  confidence : PyVal

/-- Monadic map, evaluating a fallible builder over list elements in order
(a Python list comprehension whose body can raise). -/
def mapRes {α : Type} (f : PyVal → Res α) : List PyVal → Res (List α)
  | [] => Except.ok []
  | x :: xs => do
      let y ← f x
      let ys ← mapRes f xs
      pure (y :: ys)

/-- `models.WaypointPath.from_dict`: the truthiness-guarded road-segment list
is evaluated first, then the constructor arguments in source order. -/
def WaypointPath.from_dict (data : PyVal) : Res WaypointPath := do
  let rsRaw ← pyGetD data "roadSegment" PyVal.none
  let roadSegment ←
    if pyTruthy rsRaw then do
      let items ← pySubscript data "roadSegment"
      let xs ← pyIter items
      let rs ← mapRes RoadSegment.from_dict xs
      pure (some rs)
    else
      pure (Option.none : Option (List RoadSegment))
  let wpsRaw ← pySubscript data "waypoints"
  let wpItems ← pyIter wpsRaw
  let waypoints ← mapRes Waypoint.from_dict wpItems
  let source ← pySubscript data "source"
  let distanceMeters ← pyGetD data "distanceMeters" PyVal.none
  let travelMode ← pyGetD data "travelMode" PyVal.none
  let confidence ← pyGetD data "confidence" PyVal.none
  pure ⟨waypoints, source, roadSegment, distanceMeters, travelMode, confidence⟩

/-- `models.RawPathPoint`. -/
structure RawPathPoint where
  lat : ℚ
  lng : ℚ
  accuracyMeters : PyVal
  timestamp : PyDatetime

/-- `models.RawPathPoint.from_dict`. -/
def RawPathPoint.from_dict (data : PyVal) : Res RawPathPoint := do
  let latRaw ← pySubscript data "latE7"
  let lat ← pyDivE7 latRaw
  let lngRaw ← pySubscript data "lngE7"
  let lng ← pyDivE7 lngRaw
  let acc ← pySubscript data "accuracyMeters"
  let tsRaw ← pySubscript data "timestamp"
  let ts ← parse_json_utc_date tsRaw
  pure ⟨lat, lng, acc, ts⟩

/-- `models.SimplifiedRawPath`. -/
structure SimplifiedRawPath where
  points : List RawPathPoint

/-- `models.SimplifiedRawPath.from_list`. -/
def SimplifiedRawPath.from_list (data : PyVal) : Res SimplifiedRawPath := do
  let xs ← pyIter data
  let points ← mapRes RawPathPoint.from_dict xs
  pure ⟨points⟩

/-- `models.ActivitySegment`. -/
structure ActivitySegment where
  startTime : PyDatetime
  endTime : PyDatetime
  distance : PyVal
  confidence : PyVal
  activities : List ActivitySegmentActivity
  simplifiedRawPath : SimplifiedRawPath
  waypointPath : Option WaypointPath
  activityType : PyVal
  startLat : Option ℚ
  startLng : Option ℚ
  endLat : Option ℚ
  endLng : Option ℚ
  editConfirmationStatus : PyVal

/-- `models.ActivitySegment.key`:
`(int(startTime.timestamp()), int(endTime.timestamp()), distance)`. -/
def ActivitySegment.key (a : ActivitySegment) : Int × Int × PyVal :=
  (pyInt a.startTime.timestamp, pyInt a.endTime.timestamp, a.distance)

/-- `models.ChromeHistory`. -/
structure ChromeHistory where
  title : PyVal
  url : PyVal
  dt : PyDatetime

/-- `models.ChromeHistory.key`: `(url, int(dt.timestamp()))`. -/
def ChromeHistory.key (c : ChromeHistory) : PyVal × Int :=
  (c.url, pyInt c.dt.timestamp)

/-! ## The record extractors (`parse_json.py`)

Each extractor takes the path string (used only inside messages) and the
already-parsed top-level JSON value (the code reads and `json.loads` the file
eagerly before yielding anything). -/

/-- Subtitle collection loop of `_parse_json_activity`: iterate the subtitle
entries, skipping non-dict entries and entries without a name; each kept entry
reads `name` (present by the check) and `url` via get.  The loop cannot raise
once the entry list is obtained. -/
def collectSubtitles : List PyVal → List Subtitles
  | [] => []
  | PyVal.dict kvs :: rest =>
      match dictLookup kvs "name" with
      | some n => ⟨n, (dictLookup kvs "url").getD PyVal.none⟩ :: collectSubtitles rest
      | Option.none => collectSubtitles rest
  | _ :: rest => collectSubtitles rest

/-- Details comprehension of `_parse_json_activity`: keep `d["name"]` of the
entries that are dicts containing a name. -/
def collectDetails : List PyVal → List PyVal
  | [] => []
  | PyVal.dict kvs :: rest =>
      match dictLookup kvs "name" with
      | some n => n :: collectDetails rest
      | Option.none => collectDetails rest
  | _ :: rest => collectDetails rest

/-- LocationInfos comprehension of `_parse_json_activity`: every entry is
built with four gets (which raise `AttributeError` on a non-dict entry), the
two URL fields going through the https upgrade. -/
def buildLocationInfo (locinfo : PyVal) : Res LocationInfo := do
  let name ← pyGetD locinfo "name" PyVal.none
  let url ← pyGetD locinfo "url" PyVal.none
  let source ← pyGetD locinfo "source" PyVal.none
  let sourceUrl ← pyGetD locinfo "sourceUrl" PyVal.none
  pure ⟨name, convert_to_https_opt url, source, convert_to_https_opt sourceUrl⟩

/-- Body of the per-record try block of `_parse_json_activity`: subtitles are
collected from the outer record first; then the legacy snippet shape is
detected and unwrapped (rebinding `blob`), and the remaining constructor
arguments are evaluated in source order against the rebound record. -/
def json_activity_record (blob : PyVal) : Res Activity := do
  let subsRaw ← pyGetD blob "subtitles" (PyVal.list [])
  let subItems ← pyIter subsRaw
  let subtitles := collectSubtitles subItems
  let isOld ← pyContains blob "snippet"
  let (blob2, header, time_str) ←
    if isOld then do
      let inner ← pySubscript blob "snippet"
      let t ← pySubscript inner "publishedAt"
      pure (inner, PyVal.str "YouTube", t)
    else do
      let h ← pySubscript blob "header"
      let t ← pySubscript blob "time"
      pure (blob, h, t)
  let title ← pySubscript blob2 "title"
  let titleUrlRaw ← pyGetD blob2 "titleUrl" PyVal.none
  let description ← pyGetD blob2 "description" PyVal.none
  let time ← parse_json_utc_date time_str
  let detailsRaw ← pyGetD blob2 "details" (PyVal.list [])
  let detailItems ← pyIter detailsRaw
  let locRaw ← pyGetD blob2 "locationInfos" (PyVal.list [])
  let locItems ← pyIter locRaw
  let locationInfos ← mapRes buildLocationInfo locItems
  let products ← pyGetD blob2 "products" (PyVal.list [])
  pure ⟨header, title, time, description, convert_to_https_opt titleUrlRaw,
        subtitles, collectDetails detailItems, locationInfos, products⟩

/-- `_parse_json_activity`: top-level list check (one document-shape error on
failure, iteration over the malformed value continues and can raise), then one
outcome per record with every per-record exception captured. -/
def parse_json_activity (p : String) (json_data : PyVal) : GenOut Activity :=
  let pre : List (Res Activity) :=
    match json_data with
    | PyVal.list _ => []
    | _ => [Except.error (PyExc.runtimeError
        ("Activity: Top level item in " ++ p ++ " is not a list"))]
  match pyIter json_data with
  | Except.error e => (pre, some e)
  | Except.ok blobs => (pre ++ blobs.map (fun b => json_activity_record b), Option.none)

/-- Body of the per-record try block of `_parse_likes`. -/
def likes_record (jlike : PyVal) : Res LikedYoutubeVideo := do
  let snippet ← pySubscript jlike "snippet"
  let title ← pySubscript snippet "title"
  let snippet2 ← pySubscript jlike "snippet"
  let desc ← pySubscript snippet2 "description"
  let cd ← pySubscript jlike "contentDetails"
  let vid ← pySubscript cd "videoId"
  let vidStr :=
    match vid with
    | PyVal.str s => s
    | PyVal.int n => toString n
    | _ => "?"
  let snippet3 ← pySubscript jlike "snippet"
  let pubRaw ← pySubscript snippet3 "publishedAt"
  let dt ← parse_json_utc_date pubRaw
  pure ⟨title, desc, "https://youtube.com/watch?v=" ++ vidStr, dt⟩

/-- `_parse_likes`: same document envelope as the activity extractor. -/
def parse_likes (p : String) (json_data : PyVal) : GenOut LikedYoutubeVideo :=
  let pre : List (Res LikedYoutubeVideo) :=
    match json_data with
    | PyVal.list _ => []
    | _ => [Except.error (PyExc.runtimeError
        ("Likes: Top level item in " ++ p ++ " is not a list"))]
  match pyIter json_data with
  | Except.error e => (pre, some e)
  | Except.ok blobs => (pre ++ blobs.map (fun b => likes_record b), Option.none)

/-- Body of the per-record try block of `_parse_app_installs`. -/
def app_install_record (japp : PyVal) : Res PlayStoreAppInstall := do
  let install ← pySubscript japp "install"
  let doc ← pySubscript install "doc"
  let title ← pySubscript doc "title"
  let install2 ← pySubscript japp "install"
  let devAttr ← pySubscript install2 "deviceAttribute"
  let device_name ← pyGetD devAttr "deviceDisplayName" PyVal.none
  let install3 ← pySubscript japp "install"
  let fitRaw ← pySubscript install3 "firstInstallationTime"
  let dt ← parse_json_utc_date fitRaw
  pure ⟨title, dt, device_name⟩

/-- `_parse_app_installs`: same document envelope as the activity
extractor. -/
def parse_app_installs (p : String) (json_data : PyVal) : GenOut PlayStoreAppInstall :=
  let pre : List (Res PlayStoreAppInstall) :=
    match json_data with
    | PyVal.list _ => []
    | _ => [Except.error (PyExc.runtimeError
        ("App installs: Top level item in " ++ p ++ " is not a list"))]
  match pyIter json_data with
  | Except.error e => (pre, some e)
  | Except.ok blobs => (pre ++ blobs.map (fun b => app_install_record b), Option.none)

/-- `_parse_timestamp_key`: prefer the millisecond variant `keyMs` when
present, else fall back to the ISO field `key`. -/
def parse_timestamp_key (d : PyVal) (key : String) : Res PyDatetime := do
  let hasMs ← pyContains d (key ++ "Ms")
  if hasMs then do
    let raw ← pySubscript d (key ++ "Ms")
    parse_datetime_millis raw
  else do
    let raw ← pySubscript d key
    parse_json_utc_date raw

/-- Per-record body of `_parse_location_history`.  The accuracy get happens
before the try block, so its exception escapes the generator; every exception
inside the try block is captured. -/
def location_record (loc : PyVal) : GenOut Location :=
  match pyGetD loc "accuracy" PyVal.none with
  | Except.error e => ([], some e)
  | Except.ok accuracy =>
      let body : Res Location := do
        let lngRaw ← pySubscript loc "longitudeE7"
        let lngF ← pyFloat lngRaw
        let latRaw ← pySubscript loc "latitudeE7"
        let latF ← pyFloat latRaw
        let dt ← parse_timestamp_key loc "timestamp"
        let acc ←
          if pyIsNone accuracy then pure (Option.none : Option ℚ)
          else do
            let a ← pyFloat accuracy
            pure (some a)
        pure ⟨latF / 10000000, lngF / 10000000, acc, dt⟩
      ([body], Option.none)

/-- Record loop of `_parse_location_history`: one outcome per record until a
record raises outside its try block, which ends the generator. -/
def location_loop : List PyVal → GenOut Location
  | [] => ([], Option.none)
  | loc :: rest =>
      match location_record loc with
      | (outs, some e) => (outs, some e)
      | (outs, Option.none) =>
          match location_loop rest with
          | (outs2, r) => (outs ++ outs2, r)

/-- `_parse_location_history`: document-shape error when the `locations` key
is missing (the membership test itself raises on a scalar), then the record
loop over the `locations` value. -/
def parse_location_history (p : String) (json_data : PyVal) : GenOut Location :=
  match pyContains json_data "locations" with
  | Except.error e => ([], some e)
  | Except.ok has =>
      let pre : List (Res Location) :=
        if has then []
        else [Except.error (PyExc.runtimeError
          ("Locations: no locations key in " ++ p))]
      match pyGetD json_data "locations" (PyVal.list []) with
      | Except.error e => (pre, some e)
      | Except.ok locs =>
          match pyIter locs with
          | Except.error e => (pre, some e)
          | Except.ok xs =>
              match location_loop xs with
              | (outs, r) => (pre ++ outs, r)

/-- Required-key lists of the semantic extractor (module constants). -/
def sem_required_keys : List String := ["location", "duration"]

/-- Required keys inside the `location` object of a place visit. -/
def sem_required_location_keys : List String := ["placeId", "latitudeE7", "longitudeE7"]

/-- Required keys of an activity segment. -/
def sem_activity_segment_required_keys : List String := ["duration", "activities"]

/-- `_check_required_keys`: the first listed key not contained in `d`
(the membership test itself can raise on unsuitable values). -/
def check_required_keys (d : PyVal) : List String → Res (Option String)
  | [] => Except.ok Option.none
  | k :: ks => do
      let has ← pyContains d k
      if has then check_required_keys d ks else pure (some k)

/-- Rewrap of a raw `KeyError` into a descriptive `RuntimeError`, as the
except blocks of the two semantic sub-builders do; other exceptions are
re-raised unchanged. -/
def rewrapKeyError (tag : String) (e : PyExc) : PyExc :=
  match e with
  | PyExc.keyError k => PyExc.runtimeError (tag ++ ": missing key " ++ k)
  | e => e

/-- `_parse_place_visit`: required-key validation (raising a `RuntimeError`
naming the first missing key), the silent-discard check on the three core
location identity keys (returning Python `None`), then construction with
arguments evaluated in source order; a `KeyError` inside the try block is
rewrapped into a descriptive `RuntimeError`. -/
def parse_place_visit (placeVisit : PyVal) : Res (Option PlaceVisit) := do
  let missing ← check_required_keys placeVisit sem_required_keys
  match missing with
  | some k => Except.error (PyExc.runtimeError ("PlaceVisit: no " ++ k ++ " key"))
  | Option.none =>
    Except.mapError (rewrapKeyError "PlaceVisit") (do
      let location_json ← pySubscript placeVisit "location"
      let missingLoc ← check_required_keys location_json sem_required_location_keys
      match missingLoc with
      | some _ => pure Option.none
      | Option.none => do
          let location ← CandidateLocation.from_dict location_json
          let duration ← pySubscript placeVisit "duration"
          let otherRaw ← pyGetD placeVisit "otherCandidateLocations" (PyVal.list [])
          let otherItems ← pyIter otherRaw
          let otherCandidateLocations ← mapRes CandidateLocation.from_dict otherItems
          let placeConfidence ← pyGetD placeVisit "placeConfidence" PyVal.none
          let placeVisitImportance ← pyGetD placeVisit "placeVisitImportance" PyVal.none
          let placeVisitType ← pyGetD placeVisit "placeVisitType" PyVal.none
          let visitConfidence ← pyGetD placeVisit "visitConfidence" PyVal.none
          let editConfirmationStatus ← pyGetD placeVisit "editConfirmationStatus" PyVal.none
          let hasCLat ← pyContains placeVisit "centerLatE7"
          let centerLat ←
            if hasCLat then do
              let raw ← pySubscript placeVisit "centerLatE7"
              let f ← pyFloat raw
              pure (some (f / 10000000))
            else pure (Option.none : Option ℚ)
          let hasCLng ← pyContains placeVisit "centerLngE7"
          let centerLng ←
            if hasCLng then do
              let raw ← pySubscript placeVisit "centerLngE7"
              let f ← pyFloat raw
              pure (some (f / 10000000))
            else pure (Option.none : Option ℚ)
          let startTime ← parse_timestamp_key duration "startTimestamp"
          let endTime ← parse_timestamp_key duration "endTimestamp"
          pure (some ⟨location.lat, location.lng, centerLat, centerLng,
            location.address, location.name, location.locationConfidence,
            location.placeId, startTime, endTime, location.sourceInfoDeviceTag,
            otherCandidateLocations, placeConfidence, placeVisitType,
            visitConfidence, editConfirmationStatus, placeVisitImportance⟩))

/-- Start or end location block of `_parse_activity_segment`: subscript the
key (`KeyError` when absent), then decode through the shared
CandidateLocation builder only when the value is truthy — an empty object
yields absent coordinates. -/
def segEndpoint (activitySegment : PyVal) (key : String) : Res (Option ℚ × Option ℚ) := do
  let v ← pySubscript activitySegment key
  if pyTruthy v then do
    let c ← CandidateLocation.from_dict v
    pure (some c.lat, some c.lng)
  else
    pure (Option.none, Option.none)

/-- `_parse_activity_segment`: required-key validation, the two optional
endpoint blocks, then construction with arguments evaluated in source order;
a `KeyError` inside the try block is rewrapped. -/
def parse_activity_segment (activitySegment : PyVal) : Res (Option ActivitySegment) := do
  let missing ← check_required_keys activitySegment sem_activity_segment_required_keys
  match missing with
  | some k => Except.error (PyExc.runtimeError ("ActivitySegment: no " ++ k ++ " key"))
  | Option.none =>
    Except.mapError (rewrapKeyError "ActivitySegment") (do
      let sp ← segEndpoint activitySegment "startLocation"
      let ep ← segEndpoint activitySegment "endLocation"
      let dur ← pySubscript activitySegment "duration"
      let stRaw ← pySubscript dur "startTimestamp"
      let startTime ← parse_json_utc_date stRaw
      let dur2 ← pySubscript activitySegment "duration"
      let enRaw ← pySubscript dur2 "endTimestamp"
      let endTime ← parse_json_utc_date enRaw
      let distance ← pyGetD activitySegment "distance" PyVal.none
      let activityType ← pyGetD activitySegment "activityType" PyVal.none
      let confidence ← pyGetD activitySegment "confidence" PyVal.none
      let actsRaw ← pyGetD activitySegment "activities" (PyVal.list [])
      let actItems ← pyIter actsRaw
      let activities ← mapRes ActivitySegmentActivity.from_dict actItems
      let hasWp ← pyContains activitySegment "waypointPath"
      let waypointPath ←
        if hasWp then do
          let raw ← pySubscript activitySegment "waypointPath"
          let wp ← WaypointPath.from_dict raw
          pure (some wp)
        else pure (Option.none : Option WaypointPath)
      let srpRaw ← pyGetD activitySegment "simplifiedRawPath" (PyVal.dict [])
      let pointsRaw ← pyGetD srpRaw "points" (PyVal.list [])
      let simplifiedRawPath ← SimplifiedRawPath.from_list pointsRaw
      let editConfirmationStatus ← pyGetD activitySegment "editConfirmationStatus" PyVal.none
      pure (some ⟨startTime, endTime, distance, confidence, activities,
        simplifiedRawPath, waypointPath, activityType,
        sp.1, sp.2, ep.1, ep.2, editConfirmationStatus⟩))

/-- An event yielded by the semantic location-history extractor. -/
inductive SemEvent where
  | pv : PlaceVisit → SemEvent
  | seg : ActivitySegment → SemEvent

/-- The state of the Python local variable `result` across loop iterations of
`_parse_semantic_location_history`: `Option.none` when still unbound,
`some Option.none` when bound to Python `None` (a silent discard), and
`some (some ev)` when bound to the last successfully built event. -/
abbrev ResultVar := Option (Option SemEvent)

/-- Message of the unknown-timeline-object error: the f-string interpolates
`timelineObject.keys()`, so building the message itself raises
`AttributeError` on a value without `keys` (a string or a list). -/
def unknownTimelineMsg (p : String) (o : PyVal) : Res String :=
  match o with
  | PyVal.dict kvs =>
      Except.ok ("Unknown timeline object with keys " ++
        String.intercalate ", " (kvs.map (fun kv => kv.1)) ++ " in path " ++ p)
  | _ => Except.error (PyExc.attributeError "object has no attribute keys")

/-- One iteration of the timeline loop: the outcomes yielded for this object
and the new state of `result`.  The `else` branch yields its `RuntimeError`
and then still falls through to the `if result is not None` check, reading the
stale (or yet unbound) `result`. -/
def semStep (p : String) (st : ResultVar) (o : PyVal) : List (Res SemEvent) × ResultVar :=
  match pyContains o "placeVisit" with
  | Except.error e => ([Except.error e], st)
  | Except.ok true =>
      match (do
          let pv ← pySubscript o "placeVisit"
          parse_place_visit pv) with
      | Except.error e => ([Except.error e], st)
      | Except.ok r =>
          let r2 := r.map SemEvent.pv
          ((match r2 with
            | some ev => [Except.ok ev]
            | Option.none => []), some r2)
  | Except.ok false =>
      match pyContains o "activitySegment" with
      | Except.error e => ([Except.error e], st)
      | Except.ok true =>
          match (do
              let seg ← pySubscript o "activitySegment"
              parse_activity_segment seg) with
          | Except.error e => ([Except.error e], st)
          | Except.ok r =>
              let r2 := r.map SemEvent.seg
              ((match r2 with
                | some ev => [Except.ok ev]
                | Option.none => []), some r2)
      | Except.ok false =>
          match unknownTimelineMsg p o with
          | Except.error e => ([Except.error e], st)
          | Except.ok msg =>
              (Except.error (PyExc.runtimeError msg) ::
                (match st with
                 | Option.none => [Except.error (PyExc.unboundLocalError "result")]
                 | some Option.none => []
                 | some (some ev) => [Except.ok ev]), st)

/-- Timeline loop of `_parse_semantic_location_history`, threading the
`result` variable. -/
def semLoop (p : String) (st : ResultVar) : List PyVal → List (Res SemEvent)
  | [] => []
  | o :: rest =>
      match semStep p st o with
      | (outs, st2) => outs ++ semLoop p st2 rest

/-- `_parse_semantic_location_history`: dict check and `timelineObjects`
check (each yielding a document-shape error on failure and proceeding), then
the timeline loop with `result` initially unbound. -/
def parse_semantic_location_history (p : String) (json_data : PyVal) : GenOut SemEvent :=
  let pre1 : List (Res SemEvent) :=
    match json_data with
    | PyVal.dict _ => []
    | _ => [Except.error (PyExc.runtimeError
        ("Locations: Top level item in " ++ p ++ " is not a dict"))]
  match pyContains json_data "timelineObjects" with
  | Except.error e => (pre1, some e)
  | Except.ok has =>
      let pre := pre1 ++
        (if has then []
         else [Except.error (PyExc.runtimeError
            ("Locations: no timelineObjects key in " ++ p))])
      match pyGetD json_data "timelineObjects" (PyVal.list []) with
      | Except.error e => (pre, some e)
      | Except.ok tv =>
          match pyIter tv with
          | Except.error e => (pre, some e)
          | Except.ok objs => (pre ++ semLoop p Option.none objs, Option.none)

/-- Per-record body of `_parse_chrome_history`: the timestamp is decoded
first from the microsecond epoch by true division and
`datetime.utcfromtimestamp`, then title and url are read, and the naive
datetime is tagged UTC; every exception is captured by the caller. -/
def chrome_record (item : PyVal) : Res ChromeHistory := do
  let usecRaw ← pySubscript item "time_usec"
  let usecF ←
    match usecRaw with
    | PyVal.int n => Except.ok ((n : ℚ) / 1000000)
    | PyVal.float q => Except.ok (q / 1000000)
    | PyVal.bool b => Except.ok ((if b then 1 else 0 : ℚ) / 1000000)
    | _ => Except.error (PyExc.typeError "unsupported operand type for div")
  let time_naive := utcfromtimestamp usecF
  let title ← pySubscript item "title"
  let url ← pySubscript item "url"
  pure ⟨title, url, replaceTzUtc time_naive⟩

/-- `_parse_chrome_history`: document-shape error when the `Browser History`
key is missing (the membership test itself raises on a scalar), then one
captured outcome per record. -/
def parse_chrome_history (p : String) (json_data : PyVal) : GenOut ChromeHistory :=
  match pyContains json_data "Browser History" with
  | Except.error e => ([], some e)
  | Except.ok has =>
      let pre : List (Res ChromeHistory) :=
        if has then []
        else [Except.error (PyExc.runtimeError
          ("Chrome/BrowserHistory: no Browser History key in " ++ p))]
      match pyGetD json_data "Browser History" (PyVal.list []) with
      | Except.error e => (pre, some e)
      | Except.ok items =>
          match pyIter items with
          | Except.error e => (pre, some e)
          | Except.ok xs => (pre ++ xs.map (fun it => chrome_record it), Option.none)

/-- Modelled from the spec: the truncated-to-second integer UTC epoch value of
an instant — sub-second precision discarded (truncation toward zero of the
epoch-second value, spec section 3 "truncated timestamp"). -/
def truncatedEpochSecond (d : PyDatetime) : Int :=
  d.epochMicros.tdiv 1000000

/-- Scalar (non-string, non-collection) JSON values: null, booleans and
numbers. -/
def isNonStrScalar : PyVal → Bool
  | PyVal.none => true
  | PyVal.bool _ => true
  | PyVal.int _ => true
  | PyVal.float _ => true
  | _ => false

/-- Whether a JSON value is an object. -/
def isDictB : PyVal → Bool
  | PyVal.dict _ => true
  | _ => false

/-- Input record of the C6 witness: the 2012-era activity segment of the
repository tests with `startLocation` and `endLocation` both the empty
object. -/
def c6SegKvs : List (String × PyVal) :=
  [("duration", PyVal.dict
      [("startTimestamp", PyVal.str "2012-12-06T04:09:31.087Z"),
       ("endTimestamp", PyVal.str "2012-12-06T04:19:21.052Z")]),
   ("activities", PyVal.list []),
   ("startLocation", PyVal.dict []),
   ("endLocation", PyVal.dict [])]

/-- The event built from `c6SegKvs`. -/
def c6SegEvent : ActivitySegment :=
  ⟨⟨1354766971087000, true⟩, ⟨1354767561052000, true⟩, PyVal.none, PyVal.none,
   [], ⟨[]⟩, Option.none, PyVal.none, Option.none, Option.none, Option.none,
   Option.none, PyVal.none⟩

/-- Input record of the C10 witness: a legacy (snippet-shaped) record whose
only subtitles live inside the snippet. -/
def c10Kvs : List (String × PyVal) :=
  [("snippet", PyVal.dict
      [("publishedAt", PyVal.str "2015-10-05T17:23:15.000Z"),
       ("title", PyVal.str "T"),
       ("subtitles", PyVal.list [PyVal.dict [("name", PyVal.str "S")]])])]

/-- The event built from `c10Kvs`: its subtitles list is empty. -/
def c10Event : Activity :=
  ⟨PyVal.str "YouTube", PyVal.str "T", ⟨1444065795000000, true⟩, PyVal.none,
   PyVal.none, [], [], [], PyVal.list []⟩

/-- Whether the timeline-object dispatch falls into the `else` branch: both
membership tests succeed and are false.  Only there does the loop read the
stale `result` variable. -/
def noBranchKey (o : PyVal) : Bool :=
  match pyContains o "placeVisit", pyContains o "activitySegment" with
  | Except.ok false, Except.ok false => true
  | _, _ => false

/-- Whether a timeline object is a silently discarded place visit: it
dispatches to the place-visit builder, which returns Python `None` (the
location object misses one of the three identity keys). -/
def isDiscardPlaceVisit (o : PyVal) : Bool :=
  match pyContains o "placeVisit" with
  | Except.ok true =>
      (match (do
          let pv ← pySubscript o "placeVisit"
          parse_place_visit pv : Res (Option PlaceVisit)) with
       | Except.ok Option.none => true
       | _ => false)
  | _ => false

/-- The outcomes one timeline object contributes on its own (with `result`
unbound); for objects that do not reach the `else` branch this is their
contribution from any loop state. -/
def semStepOut (p : String) (o : PyVal) : List (Res SemEvent) :=
  (semStep p Option.none o).1

/-- Records of the C4 witness: a good coarse-location record and an object
record missing `longitudeE7`. -/
def c4Recs : List PyVal :=
  [PyVal.dict [("latitudeE7", PyVal.int 351324213),
      ("longitudeE7", PyVal.int (-1122434441)), ("accuracy", PyVal.int 10),
      ("timestampMs", PyVal.str "1512947698030")],
   PyVal.dict [("latitudeE7", PyVal.int 1)]]

/-- Timeline object of the C3 witness before the discarded one: a complete
place visit. -/
def c3PvObj : PyVal :=
  PyVal.dict [("placeVisit", PyVal.dict
    [("location", PyVal.dict
        [("placeId", PyVal.str "JK4E4P"),
         ("latitudeE7", PyVal.int 555555555),
         ("longitudeE7", PyVal.int (-1066666666))]),
     ("duration", PyVal.dict
        [("startTimestamp", PyVal.str "2017-12-10T23:29:25.026Z"),
         ("endTimestamp", PyVal.str "2017-12-11T01:20:06.106Z")])])]

/-- Timeline object of the C3 witness that is silently discarded: its
location misses `placeId`. -/
def c3DiscardObj : PyVal :=
  PyVal.dict [("placeVisit", PyVal.dict
    [("location", PyVal.dict [("latitudeE7", PyVal.int 1)]),
     ("duration", PyVal.dict [])])]

/-- Timeline object of the C3 witness after the discarded one: an activity
segment. -/
def c3SegObj : PyVal :=
  PyVal.dict [("activitySegment", PyVal.dict
    [("duration", PyVal.dict
        [("startTimestamp", PyVal.str "2016-12-24T00:11:20.573Z"),
         ("endTimestamp", PyVal.str "2016-12-24T00:32:23.034Z")]),
     ("activities", PyVal.list []),
     ("startLocation", PyVal.dict []),
     ("endLocation", PyVal.dict [])])]

/-! ## Supporting lemmas -/

theorem except_bind_eq_ok {ε α β : Type} {e : Except ε α} {f : α → Except ε β} {b : β} :
    Except.bind e f = Except.ok b ↔ ∃ a, e = Except.ok a ∧ f a = Except.ok b := by
  cases e <;> simp [Except.bind]

theorem except_mapError_eq_ok {ε α : Type} {g : ε → ε} {e : Except ε α} {a : α} :
    Except.mapError g e = Except.ok a ↔ e = Except.ok a := by
  cases e <;> simp [Except.mapError]

theorem pyGetD_dict (kvs : List (String × PyVal)) (k : String) (dflt : PyVal) :
    pyGetD (PyVal.dict kvs) k dflt = Except.ok ((dictLookup kvs k).getD dflt) := by
  cases h : dictLookup kvs k <;> simp [pyGetD, h]

theorem pySubscript_dict_some (kvs : List (String × PyVal)) (k : String) (v : PyVal)
    (h : dictLookup kvs k = some v) : pySubscript (PyVal.dict kvs) k = Except.ok v := by
  simp [pySubscript, h]

theorem pySubscript_dict_none (kvs : List (String × PyVal)) (k : String)
    (h : dictLookup kvs k = Option.none) :
    pySubscript (PyVal.dict kvs) k = Except.error (PyExc.keyError k) := by
  simp [pySubscript, h]

theorem pyInt_intCast_div_natCast (m : Int) (k : Nat) (hk : 0 < k) :
    pyInt ((m : ℚ) / (k : ℚ)) = m.tdiv k := by
  rcases le_or_lt 0 m with hm | hm
  · have hq : (0 : ℚ) ≤ (m : ℚ) / (k : ℚ) := by positivity
    rw [pyInt, if_pos hq, Rat.floor_intCast_div_natCast,
      Int.tdiv_eq_ediv hm (by exact_mod_cast hk.le)]
  · have hq : (m : ℚ) / (k : ℚ) < 0 := by
      apply div_neg_of_neg_of_pos
      · exact_mod_cast hm
      · exact_mod_cast hk
    rw [pyInt, if_neg (not_le.mpr hq)]
    have h1 : ⌈(m : ℚ) / (k : ℚ)⌉ = -⌊-((m : ℚ) / (k : ℚ))⌋ := by
      rw [Int.floor_neg, neg_neg]
    rw [h1]
    have h2 : -((m : ℚ) / (k : ℚ)) = ((-m : ℤ) : ℚ) / (k : ℚ) := by push_cast; ring
    rw [h2, Rat.floor_intCast_div_natCast,
      ← Int.tdiv_eq_ediv (by omega) (by exact_mod_cast hk.le), Int.neg_tdiv, neg_neg]

theorem pyInt_timestamp (d : PyDatetime) :
    pyInt d.timestamp = truncatedEpochSecond d := by
  have h := pyInt_intCast_div_natCast d.epochMicros 1000000 (by norm_num)
  simpa [PyDatetime.timestamp, truncatedEpochSecond] using h

/-! ## Claims -/

/-- C7: every event identity key equals the tuple stated in the data model —
Activity `(header, title, truncated timestamp)`, PlaceVisit
`(lat, lng, truncated start timestamp, visit confidence)`, ActivitySegment
`(start timestamp, end timestamp, distance)`, BrowserHistoryEntry
`(url, truncated timestamp)` — where every truncated component is the
integer UTC epoch second of the corresponding timestamp field. -/
theorem C7_event_identity_keys (a : Activity) (pv : PlaceVisit)
    (seg : ActivitySegment) (ch : ChromeHistory) :
    a.key = (a.header, a.title, truncatedEpochSecond a.time) ∧
    pv.key = (pv.lat, pv.lng, truncatedEpochSecond pv.startTime, pv.visitConfidence) ∧
    seg.key = (truncatedEpochSecond seg.startTime, truncatedEpochSecond seg.endTime,
      seg.distance) ∧
    ch.key = (ch.url, truncatedEpochSecond ch.dt) := by
  refine ⟨?_, ?_, ?_, ?_⟩ <;>
    simp [Activity.key, PlaceVisit.key, ActivitySegment.key, ChromeHistory.key,
      pyInt_timestamp]


theorem pyRound_div_mul_cancel (raw : Int) (k : ℚ) (hk : k ≠ 0) :
    pyRound ((raw : ℚ) / k * k) = raw := by
  have h : (raw : ℚ) / k * k = (raw : ℚ) := div_mul_cancel₀ _ hk
  rw [pyRound, h, round_intCast]

/-- C9: for every in-range integer raw value, the E7 coordinate decode used
for the lat/lng fields (here in the shared `CandidateLocation` builder)
returns exactly `raw / 10^7` as the degree value, and composing it with the
inverse `round(degrees * 1e7)` recovers raw exactly. -/
theorem C9_e7_decode_roundtrip (d : List (String × PyVal)) (rawLat rawLng : Int)
    (c : CandidateLocation)
    (hlat : dictLookup d "latitudeE7" = some (PyVal.int rawLat))
    (hlng : dictLookup d "longitudeE7" = some (PyVal.int rawLng))
    (hok : CandidateLocation.from_dict (PyVal.dict d) = Except.ok c)
    (hin : rawLat.natAbs ≤ 1800000000 ∧ rawLng.natAbs ≤ 1800000000) :
    c.lat = (rawLat : ℚ) / 10000000 ∧ c.lng = (rawLng : ℚ) / 10000000 ∧
    pyRound (c.lat * 10000000) = rawLat ∧ pyRound (c.lng * 10000000) = rawLng := by
  simp only [CandidateLocation.from_dict, pyGetD_dict, pySubscript_dict_some _ _ _ hlat,
    pySubscript_dict_some _ _ _ hlng, pyDivE7, bind, Except.bind] at hok
  rcases hsi : (dictLookup d "sourceInfo").getD (PyVal.dict [])
    with _ | b | n | q | s | xs | kvs <;> rw [hsi] at hok <;> simp [pyGetD] at hok
  cases htag : dictLookup kvs "deviceTag" <;> rw [htag] at hok <;>
    simp only [pure, Except.pure, Except.ok.injEq] at hok <;> subst hok <;>
    exact ⟨rfl, rfl, pyRound_div_mul_cancel rawLat 10000000 (by norm_num),
      pyRound_div_mul_cancel rawLng 10000000 (by norm_num)⟩


/-- Witness for C9 at the coarse-location test coordinates. -/
theorem C9_e7_decode_roundtrip_witness :
    dictLookup [("latitudeE7", PyVal.int 351324213), ("longitudeE7", PyVal.int (-1122434441))]
      "latitudeE7" = some (PyVal.int 351324213) ∧
    CandidateLocation.from_dict (PyVal.dict
      [("latitudeE7", PyVal.int 351324213), ("longitudeE7", PyVal.int (-1122434441))]) =
      Except.ok ⟨(351324213 : ℚ) / 10000000, (-1122434441 : ℚ) / 10000000,
        PyVal.none, PyVal.none, PyVal.none, PyVal.none, PyVal.none⟩ ∧
    ((⟨(351324213 : ℚ) / 10000000, (-1122434441 : ℚ) / 10000000,
        PyVal.none, PyVal.none, PyVal.none, PyVal.none, PyVal.none⟩ : CandidateLocation).lat =
        (351324213 : ℚ) / 10000000 ∧
     pyRound (((351324213 : ℚ) / 10000000) * 10000000) = 351324213) := by
  refine ⟨rfl, by rfl, ?_⟩
  have h := C9_e7_decode_roundtrip
    [("latitudeE7", PyVal.int 351324213), ("longitudeE7", PyVal.int (-1122434441))]
    351324213 (-1122434441)
    ⟨(351324213 : ℚ) / 10000000, (-1122434441 : ℚ) / 10000000,
      PyVal.none, PyVal.none, PyVal.none, PyVal.none, PyVal.none⟩
    rfl rfl (by rfl) ⟨by decide, by decide⟩
  exact ⟨h.1, h.2.2.1⟩

/-- C8: a browser-history record with an integer `time_usec` field produces an
event whose timestamp is the UTC-aware instant at `epoch_us / 1_000_000`
seconds, with the url passed through unmodified; and the scenario value
1617404690134513 is exactly the instant 2021-04-02T23:04:50.134513Z. -/
theorem C8_chrome_history_timestamp (kvs : List (String × PyVal)) (n : Int) (t u : PyVal)
    (husec : dictLookup kvs "time_usec" = some (PyVal.int n))
    (htitle : dictLookup kvs "title" = some t)
    (hurl : dictLookup kvs "url" = some u) :
    chrome_record (PyVal.dict kvs) = Except.ok ⟨t, u, ⟨n, true⟩⟩ ∧
    epochMicrosOfUtc 2021 4 2 23 4 50 134513 = 1617404690134513 := by
  constructor
  · simp only [chrome_record, pySubscript_dict_some _ _ _ husec,
      pySubscript_dict_some _ _ _ htitle, pySubscript_dict_some _ _ _ hurl,
      utcfromtimestamp, replaceTzUtc, bind, Except.bind]
    have h := pyRound_div_mul_cancel n 1000000 (by norm_num)
    rw [h]
    rfl
  · decide

/-- Witness for C8 at the browser-history record of the repository tests. -/
theorem C8_chrome_history_timestamp_witness :
    dictLookup [("title", PyVal.str "sean"), ("url", PyVal.str "https://sean.fish"),
        ("time_usec", PyVal.int 1617404690134513)] "time_usec" =
      some (PyVal.int 1617404690134513) ∧
    chrome_record (PyVal.dict [("title", PyVal.str "sean"),
        ("url", PyVal.str "https://sean.fish"),
        ("time_usec", PyVal.int 1617404690134513)]) =
      Except.ok ⟨PyVal.str "sean", PyVal.str "https://sean.fish",
        ⟨1617404690134513, true⟩⟩ := by
  refine ⟨rfl, ?_⟩
  exact (C8_chrome_history_timestamp
    [("title", PyVal.str "sean"), ("url", PyVal.str "https://sean.fish"),
     ("time_usec", PyVal.int 1617404690134513)]
    1617404690134513 (PyVal.str "sean") (PyVal.str "https://sean.fish")
    rfl rfl rfl).1

/-- C1 counterexample: on a top-level JSON scalar the browser-history
extractor raises a `TypeError` out of the outcome sequence after yielding
nothing at all — neither exactly one document-shape error nor an absence of
escaping exceptions. -/
theorem C1_counterexample_scalar_raises :
    parse_chrome_history "p" (PyVal.int 5) =
      ([], some (PyExc.typeError "argument of type is not iterable")) := rfl

/-- C1 as amended: on a top-level JSON scalar the three list-envelope
extractors yield exactly one document-shape error, zero events, and then a
`TypeError` escapes the generator; the semantic extractor yields its dict
document-shape error and then the membership test raises; the coarse-location
and browser-history extractors raise at the membership test with zero
outcomes. -/
theorem C1_scalar_document_behaviour (p : String) (v : PyVal)
    (hv : isNonStrScalar v = true) :
    parse_json_activity p v =
      ([Except.error (PyExc.runtimeError
          ("Activity: Top level item in " ++ p ++ " is not a list"))],
        some (PyExc.typeError "object is not iterable")) ∧
    parse_likes p v =
      ([Except.error (PyExc.runtimeError
          ("Likes: Top level item in " ++ p ++ " is not a list"))],
        some (PyExc.typeError "object is not iterable")) ∧
    parse_app_installs p v =
      ([Except.error (PyExc.runtimeError
          ("App installs: Top level item in " ++ p ++ " is not a list"))],
        some (PyExc.typeError "object is not iterable")) ∧
    parse_location_history p v =
      ([], some (PyExc.typeError "argument of type is not iterable")) ∧
    parse_semantic_location_history p v =
      ([Except.error (PyExc.runtimeError
          ("Locations: Top level item in " ++ p ++ " is not a dict"))],
        some (PyExc.typeError "argument of type is not iterable")) ∧
    parse_chrome_history p v =
      ([], some (PyExc.typeError "argument of type is not iterable")) := by
  cases v <;>
    first
      | exact ⟨rfl, rfl, rfl, rfl, rfl, rfl⟩
      | simp [isNonStrScalar] at hv

/-- Witness for C1 as amended, at the scalar 5. -/
theorem C1_scalar_document_behaviour_witness :
    isNonStrScalar (PyVal.int 5) = true ∧
    parse_location_history "p" (PyVal.int 5) =
      ([], some (PyExc.typeError "argument of type is not iterable")) :=
  ⟨rfl, (C1_scalar_document_behaviour "p" (PyVal.int 5) rfl).2.2.2.1⟩

/-- C2: evaluation of the code at the failing input — a document whose single
timeline object has neither a `placeVisit` nor an `activitySegment` key
produces two outcome elements for that one record (the unknown-keys
`RuntimeError` followed by the `UnboundLocalError` raised by the stale
`result` check), not one error at its position. -/
theorem C2_stale_result_two_outcomes :
    parse_semantic_location_history "p"
      (PyVal.dict [("timelineObjects", PyVal.list [PyVal.dict [("foo", PyVal.int 1)]])]) =
      ([Except.error (PyExc.runtimeError
          "Unknown timeline object with keys foo in path p"),
        Except.error (PyExc.unboundLocalError "result")], Option.none) := rfl


theorem parse_activity_segment_ok_endpoints (a : PyVal) (ev : ActivitySegment)
    (hok : parse_activity_segment a = Except.ok (some ev)) :
    ∃ sp ep, segEndpoint a "startLocation" = Except.ok sp ∧
      segEndpoint a "endLocation" = Except.ok ep ∧
      ev.startLat = sp.1 ∧ ev.startLng = sp.2 ∧ ev.endLat = ep.1 ∧ ev.endLng = ep.2 := by
  simp only [parse_activity_segment, bind, except_bind_eq_ok] at hok
  obtain ⟨missing, hmiss, hok⟩ := hok
  cases missing with
  | some k => simp at hok
  | none =>
    rw [except_mapError_eq_ok] at hok
    simp only [bind, except_bind_eq_ok, pure, Except.pure, Except.ok.injEq,
      Option.some.injEq, exists_eq_left] at hok
    obtain ⟨sp, hsp, ep, hep, hok⟩ := hok
    refine ⟨sp, ep, hsp, hep, ?_⟩
    obtain ⟨dur, hdur, stRaw, hstRaw, st, hst, dur2, hdur2, enRaw, henRaw, en, hen,
      dist, hdist, aty, haty, conf, hconf, actsRaw, hactsRaw, actItems, hactItems,
      acts, hacts, hasWp, hhasWp, hok⟩ := hok
    split at hok
    · simp only [bind, except_bind_eq_ok, Except.ok.injEq, Option.some.injEq,
        exists_eq_left, exists_eq_left', pure, Except.pure] at hok
      obtain ⟨raw, hraw, wpv, hwpv, srpRaw, hsrpRaw, ptsRaw, hptsRaw,
        srp, hsrp, edc, hedc, hev⟩ := hok
      subst hev
      exact ⟨rfl, rfl, rfl, rfl⟩
    · simp only [bind, except_bind_eq_ok, Except.ok.injEq, Option.some.injEq,
        exists_eq_left, exists_eq_left', pure, Except.pure] at hok
      obtain ⟨srpRaw, hsrpRaw, ptsRaw, hptsRaw, srp, hsrp, edc, hedc, hev⟩ := hok
      subst hev
      exact ⟨rfl, rfl, rfl, rfl⟩

/-- C5 counterexample: an activity-segment record containing the required
`duration` and `activities` keys but lacking `startLocation` entirely yields a
per-record error (the rewrapped `KeyError`), not an ActivitySegment event. -/
theorem C5_counterexample_missing_start_location :
    parse_activity_segment (PyVal.dict [("duration", PyVal.dict []), ("activities", PyVal.list [])]) =
      Except.error (PyExc.runtimeError "ActivitySegment: missing key startLocation") := rfl

/-- C5 as amended: for an activity-segment record with the required keys, a
missing `startLocation` key (respectively a falsy `startLocation` together
with a missing `endLocation` key) makes the sub-builder raise the rewrapped
`KeyError` as a per-record error; coordinates are treated as absent only when
the key is present with a falsy value. -/
theorem C5_missing_endpoint_key_is_error (kvs : List (String × PyVal))
    (hdur : (dictLookup kvs "duration").isSome = true)
    (hact : (dictLookup kvs "activities").isSome = true) :
    (dictLookup kvs "startLocation" = Option.none →
      parse_activity_segment (PyVal.dict kvs) =
        Except.error (PyExc.runtimeError "ActivitySegment: missing key startLocation")) ∧
    (∀ v, dictLookup kvs "startLocation" = some v → pyTruthy v = false →
      dictLookup kvs "endLocation" = Option.none →
      parse_activity_segment (PyVal.dict kvs) =
        Except.error (PyExc.runtimeError "ActivitySegment: missing key endLocation")) := by
  have hreq : check_required_keys (PyVal.dict kvs) sem_activity_segment_required_keys =
      Except.ok Option.none := by
    simp [check_required_keys, sem_activity_segment_required_keys, pyContains,
      hdur, hact, bind, Except.bind]
  constructor
  · intro hstart
    simp [parse_activity_segment, hreq, segEndpoint,
      pySubscript_dict_none _ _ hstart, Except.mapError, rewrapKeyError,
      bind, Except.bind]
  · intro v hv htr hend
    simp [parse_activity_segment, hreq, segEndpoint,
      pySubscript_dict_some _ _ _ hv, htr,
      pySubscript_dict_none _ _ hend, Except.mapError, rewrapKeyError,
      bind, Except.bind, pure, Except.pure]

/-- Witness for C5 as amended, at a record with empty required values and no
endpoint keys. -/
theorem C5_missing_endpoint_key_witness :
    (dictLookup [("duration", PyVal.dict []), ("activities", PyVal.list [])]
      "duration").isSome = true ∧
    dictLookup [("duration", PyVal.dict []), ("activities", PyVal.list [])]
      "startLocation" = Option.none ∧
    parse_activity_segment (PyVal.dict [("duration", PyVal.dict []), ("activities", PyVal.list [])]) =
      Except.error (PyExc.runtimeError "ActivitySegment: missing key startLocation") :=
  ⟨rfl, rfl, (C5_missing_endpoint_key_is_error
    [("duration", PyVal.dict []), ("activities", PyVal.list [])] rfl rfl).1 rfl⟩

/-- C6: when an activity-segment record maps `startLocation` (respectively
`endLocation`) to the empty object, the built event has both corresponding
coordinates absent, not decoded to zero. -/
theorem C6_empty_endpoint_absent_coordinates (kvs : List (String × PyVal))
    (ev : ActivitySegment)
    (hok : parse_activity_segment (PyVal.dict kvs) = Except.ok (some ev)) :
    (dictLookup kvs "startLocation" = some (PyVal.dict []) →
      ev.startLat = Option.none ∧ ev.startLng = Option.none) ∧
    (dictLookup kvs "endLocation" = some (PyVal.dict []) →
      ev.endLat = Option.none ∧ ev.endLng = Option.none) := by
  obtain ⟨sp, ep, hsp, hep, h1, h2, h3, h4⟩ := parse_activity_segment_ok_endpoints _ _ hok
  constructor
  · intro hstart
    have hse : segEndpoint (PyVal.dict kvs) "startLocation" =
        Except.ok (Option.none, Option.none) := by
      simp [segEndpoint, pySubscript_dict_some _ _ _ hstart, pyTruthy,
        bind, Except.bind, pure, Except.pure]
    rw [hse] at hsp
    have hspv : sp = (Option.none, Option.none) := (Except.ok.inj hsp).symm
    subst hspv
    exact ⟨h1, h2⟩
  · intro hend
    have hse : segEndpoint (PyVal.dict kvs) "endLocation" =
        Except.ok (Option.none, Option.none) := by
      simp [segEndpoint, pySubscript_dict_some _ _ _ hend, pyTruthy,
        bind, Except.bind, pure, Except.pure]
    rw [hse] at hep
    have hepv : ep = (Option.none, Option.none) := (Except.ok.inj hep).symm
    subst hepv
    exact ⟨h3, h4⟩

/-- Witness for C6 at the 2012-era test segment with empty endpoint
objects. -/
theorem C6_empty_endpoint_witness :
    dictLookup c6SegKvs "startLocation" = some (PyVal.dict []) ∧
    parse_activity_segment (PyVal.dict c6SegKvs) = Except.ok (some c6SegEvent) ∧
    (c6SegEvent.startLat = Option.none ∧ c6SegEvent.startLng = Option.none) :=
  ⟨rfl, by rfl, (C6_empty_endpoint_absent_coordinates c6SegKvs c6SegEvent (by rfl)).1 rfl⟩

theorem json_activity_record_ok_subtitles (kvs : List (String × PyVal)) (ev : Activity)
    (items : List PyVal)
    (hit : pyIter ((dictLookup kvs "subtitles").getD (PyVal.list [])) = Except.ok items)
    (hok : json_activity_record (PyVal.dict kvs) = Except.ok ev) :
    ev.subtitles = collectSubtitles items := by
  simp only [json_activity_record, bind, except_bind_eq_ok, pyGetD_dict, hit,
    Except.ok.injEq, exists_eq_left, exists_eq_left'] at hok
  obtain ⟨isOld, hisOld, hok⟩ := hok
  split at hok
  · simp only [bind, except_bind_eq_ok, pure, Except.pure, Except.ok.injEq,
      exists_eq_left, exists_eq_left'] at hok
    obtain ⟨inner, hinner, tstr, htstr, title, htitle, turl, hturl, desc, hdesc,
      time, htime, detRaw, hdetRaw, detIt, hdetIt, locRaw, hlocRaw, locIt, hlocIt,
      locs, hlocs, prods, hprods, hev⟩ := hok
    subst hev
    rfl
  · simp only [bind, except_bind_eq_ok, pure, Except.pure, Except.ok.injEq,
      exists_eq_left, exists_eq_left'] at hok
    obtain ⟨h0, hh0, t0, ht0, title, htitle, turl, hturl, desc, hdesc,
      time, htime, detRaw, hdetRaw, detIt, hdetIt, locRaw, hlocRaw, locIt, hlocIt,
      locs, hlocs, prods, hprods, hev⟩ := hok
    subst hev
    rfl

/-- C10: for a legacy (snippet-shaped) activity record, the subtitles of the
built event come from the subtitles field of the outer record, read before the
snippet is unwrapped; a legacy record with no outer subtitles yields an empty
subtitles list even when subtitles sit inside the snippet. -/
theorem C10_legacy_subtitles_from_outer (kvs : List (String × PyVal)) (ev : Activity)
    (hsnip : (dictLookup kvs "snippet").isSome = true)
    (hok : json_activity_record (PyVal.dict kvs) = Except.ok ev) :
    (∀ items, pyIter ((dictLookup kvs "subtitles").getD (PyVal.list [])) = Except.ok items →
      ev.subtitles = collectSubtitles items) ∧
    (dictLookup kvs "subtitles" = Option.none → ev.subtitles = []) := by
  constructor
  · intro items hit
    exact json_activity_record_ok_subtitles kvs ev items hit hok
  · intro hnone
    have hit : pyIter ((dictLookup kvs "subtitles").getD (PyVal.list [])) =
        Except.ok [] := by
      rw [hnone]
      rfl
    exact json_activity_record_ok_subtitles kvs ev [] hit hok

/-- Witness for C10 at a legacy record whose only subtitles live under the
snippet key. -/
theorem C10_legacy_subtitles_witness :
    (dictLookup c10Kvs "snippet").isSome = true ∧
    dictLookup c10Kvs "subtitles" = Option.none ∧
    json_activity_record (PyVal.dict c10Kvs) = Except.ok c10Event ∧
    c10Event.subtitles = [] :=
  ⟨rfl, rfl, by rfl,
    (C10_legacy_subtitles_from_outer c10Kvs c10Event rfl (by rfl)).2 rfl⟩


theorem location_record_dict (kvs : List (String × PyVal)) :
    (location_record (PyVal.dict kvs)).2 = Option.none ∧
    (location_record (PyVal.dict kvs)).1.length = 1 := by
  simp [location_record, pyGetD_dict]

theorem location_loop_all_dict (L : List PyVal) (h : L.all isDictB = true) :
    location_loop L = (L.flatMap (fun o => (location_record o).1), Option.none) := by
  induction L with
  | nil => rfl
  | cons o rest ih =>
      rw [List.all_cons, Bool.and_eq_true] at h
      obtain ⟨h1, h2⟩ := h
      cases o <;> simp [isDictB] at h1
      rw [location_loop, List.flatMap_cons]
      rw [show location_record (PyVal.dict _) =
        ((location_record (PyVal.dict _)).1, Option.none) from
          Prod.ext rfl (location_record_dict _).1]
      rw [ih h2]

theorem location_flat_length (L : List PyVal) (h : L.all isDictB = true) :
    (L.flatMap (fun o => (location_record o).1)).length = L.length := by
  induction L with
  | nil => rfl
  | cons o rest ih =>
      rw [List.all_cons, Bool.and_eq_true] at h
      obtain ⟨h1, h2⟩ := h
      cases o <;> simp [isDictB] at h1
      rw [List.flatMap_cons, List.length_append, ih h2, List.length_cons,
        (location_record_dict _).2]
      omega

/-- C4 counterexample: a non-object record in the coarse location history
raises an `AttributeError` out of the extractor (at the pre-try accuracy
lookup) instead of being captured as that record outcome. -/
theorem C4_counterexample_non_object_record :
    parse_location_history "p" (PyVal.dict [("locations", PyVal.list [PyVal.int 5])]) =
      ([], some (PyExc.attributeError "object has no attribute get")) := rfl

/-- C4 as amended: for the coarse location-history extractor, every exception
raised while processing an object record is captured as that record outcome
and iteration continues through all records with nothing escaping; the
guarantee holds for object records because the accuracy lookup that precedes
the try block cannot raise on an object. -/
theorem C4_object_record_exceptions_captured (p : String) (L : List PyVal)
    (h : L.all isDictB = true) :
    parse_location_history p (PyVal.dict [("locations", PyVal.list L)]) =
      (L.flatMap (fun o => (location_record o).1), Option.none) ∧
    (L.flatMap (fun o => (location_record o).1)).length = L.length := by
  constructor
  · rw [parse_location_history]
    simp only [pyContains, dictLookup, if_pos, Option.isSome_some, pyGetD, pyIter]
    rw [location_loop_all_dict L h]
    simp
  · exact location_flat_length L h

/-- Witness for C4 as amended at a two-record document: one good record and
one object record missing `longitudeE7` (whose `KeyError` is captured). -/
theorem C4_object_record_witness :
    (c4Recs.all isDictB = true) ∧
    parse_location_history "p" (PyVal.dict [("locations", PyVal.list c4Recs)]) =
      (c4Recs.flatMap (fun o => (location_record o).1), Option.none) := by
  refine ⟨rfl, ?_⟩
  exact (C4_object_record_exceptions_captured "p" c4Recs (by rfl)).1

theorem semStep_outs_of_not_noBranchKey (p : String) (o : PyVal)
    (h : noBranchKey o = false) (st st2 : ResultVar) :
    (semStep p st o).1 = (semStep p st2 o).1 := by
  unfold semStep
  rcases h1 : pyContains o "placeVisit" with e | b
  · rfl
  · cases b
    · rcases h2 : pyContains o "activitySegment" with e2 | b2
      · rfl
      · cases b2
        · unfold noBranchKey at h
          rw [h1, h2] at h
          simp at h
        · rcases hr : (do
              let seg ← pySubscript o "activitySegment"
              parse_activity_segment seg : Res (Option ActivitySegment)) with e3 | r
          · rfl
          · rfl
    · rcases hr : (do
          let pv ← pySubscript o "placeVisit"
          parse_place_visit pv : Res (Option PlaceVisit)) with e3 | r
      · rfl
      · rfl

theorem semLoop_flatMap (p : String) (L : List PyVal)
    (h : L.all (fun o => !noBranchKey o) = true) (st : ResultVar) :
    semLoop p st L = L.flatMap (semStepOut p) := by
  induction L generalizing st with
  | nil => rfl
  | cons o rest ih =>
      rw [List.all_cons, Bool.and_eq_true] at h
      obtain ⟨h1, h2⟩ := h
      have h1n : noBranchKey o = false := by
        simpa using h1
      rw [semLoop, List.flatMap_cons]
      rcases hstep : semStep p st o with ⟨outs, st2⟩
      have houts : outs = semStepOut p o := by
        unfold semStepOut
        rw [← semStep_outs_of_not_noBranchKey p o h1n st Option.none, hstep]
      show outs ++ semLoop p st2 rest = semStepOut p o ++ rest.flatMap (semStepOut p)
      rw [houts, ih h2]

theorem semStep_discard (p : String) (st : ResultVar) (d : PyVal)
    (h : isDiscardPlaceVisit d = true) :
    semStep p st d = ([], some Option.none) := by
  unfold isDiscardPlaceVisit at h
  unfold semStep
  rcases h1 : pyContains d "placeVisit" with e | b
  · rw [h1] at h
    simp at h
  · rw [h1] at h
    cases b
    · simp at h
    · rcases h2 : (do
          let pv ← pySubscript d "placeVisit"
          parse_place_visit pv : Res (Option PlaceVisit)) with e2 | r
      · rw [h2] at h
        simp at h
      · rw [h2] at h
        cases r with
        | none => rfl
        | some pv => simp at h

theorem noBranchKey_of_discard (d : PyVal) (h : isDiscardPlaceVisit d = true) :
    noBranchKey d = false := by
  unfold isDiscardPlaceVisit at h
  unfold noBranchKey
  rcases h1 : pyContains d "placeVisit" with e | b
  · rw [h1] at h
  · rw [h1] at h
    cases b
    · simp at h
    · rcases h2 : pyContains d "activitySegment" with e2 | b2
      · rfl
      · cases b2 <;> rfl

theorem sem_envelope_ok (p : String) (M : List PyVal) :
    parse_semantic_location_history p
      (PyVal.dict [("timelineObjects", PyVal.list M)]) =
      (semLoop p Option.none M, Option.none) := by
  rw [parse_semantic_location_history]
  simp [pyContains, dictLookup, pyGetD, pyIter]

/-- C3: a timeline object whose place visit has `location` and `duration` but
whose location misses one of the three identity keys contributes zero events
and zero errors (silent discard), while every other timeline object of the
document (each dispatching to one of the two branch keys) is processed
normally, contributing exactly its own outcomes. -/
theorem C3_place_visit_silent_discard (p : String) (L1 L2 : List PyVal) (d : PyVal)
    (hd : isDiscardPlaceVisit d = true)
    (h1 : L1.all (fun o => !noBranchKey o) = true)
    (h2 : L2.all (fun o => !noBranchKey o) = true) :
    semStepOut p d = [] ∧
    parse_semantic_location_history p
      (PyVal.dict [("timelineObjects", PyVal.list (L1 ++ d :: L2))]) =
      (L1.flatMap (semStepOut p) ++ L2.flatMap (semStepOut p), Option.none) := by
  have hso : semStepOut p d = [] := by
    unfold semStepOut
    rw [semStep_discard p Option.none d hd]
  refine ⟨hso, ?_⟩
  have hdn : noBranchKey d = false := noBranchKey_of_discard d hd
  have hall : (L1 ++ d :: L2).all (fun o => !noBranchKey o) = true := by
    rw [List.all_append, List.all_cons]
    simp [h1, h2, hdn]
  rw [sem_envelope_ok, semLoop_flatMap p _ hall, List.flatMap_append,
    List.flatMap_cons, hso, List.nil_append]

/-- Witness for C3: a complete place visit, then a discarded place visit,
then an activity segment. -/
theorem C3_place_visit_silent_discard_witness :
    isDiscardPlaceVisit c3DiscardObj = true ∧
    ([c3PvObj].all (fun o => !noBranchKey o) = true) ∧
    (semStepOut "p" c3DiscardObj = [] ∧
     parse_semantic_location_history "p"
       (PyVal.dict [("timelineObjects", PyVal.list ([c3PvObj] ++ c3DiscardObj :: [c3SegObj]))]) =
       ([c3PvObj].flatMap (semStepOut "p") ++ [c3SegObj].flatMap (semStepOut "p"),
         Option.none)) := by
  refine ⟨by rfl, by rfl, ?_⟩
  exact C3_place_visit_silent_discard "p" [c3PvObj] [c3SegObj] c3DiscardObj
    (by rfl) (by rfl) (by rfl)

end GTP
